import Mathlib

/-!
# Discord_BotAino: the `messageCreate` handler of `src/index.js`

A shallow embedding of the message handler (lines 48-175 of `src/index.js`) together
with the two module-level maps it mutates (`conversationHistory`, `lastBotReply`).

Modelling conventions.

* A JavaScript string is the list of its UTF-16 code units, so that `.length` is
  `List.length` and `.slice(0, n)` is `List.take n`, exactly as in JavaScript.
* A `Map` keyed by user id is a function into `Option`.
* The handler is run start to finish on one event; the two completion backends are
  oracles of the environment `Env`, which may answer or raise.  What the handler does to
  the outside world is recorded, in order, in a trace of `Action`s.
* Every call `msg.reply(..)` is recorded in the trace; whether it resolves or rejects is
  given by the environment, and a rejection is thrown at the `await`, inside whatever
  `try` encloses it.  A rejection of the last call, the apology of the outer `catch`,
  changes neither the store nor the trace.
* The typing signal `msg.channel.sendTyping()` is recorded in the trace and is taken to
  resolve; its rejection and the interleaving of two handlers at an `await` are outside
  the model.
* `console.*` output is not modelled.
-/

namespace BotAino

/-! ## Strings -/

/-- JavaScript string, as the sequence of its UTF-16 code units. -/
abbrev JsString := List Nat

/-- UTF-16 encoding of one Unicode scalar value. -/
def utf16 (c : Char) : List Nat :=
  if c.toNat < 65536 then [c.toNat]
  else [55296 + (c.toNat - 65536) / 1024, 56320 + (c.toNat - 65536) % 1024]

/-- The JavaScript string denoted by a source literal. -/
def js (s : String) : JsString := s.toList.flatMap utf16

/-- The call `s.slice(0, n)`. -/
def slice (s : JsString) (n : Nat) : JsString := s.take n

/-- The call `s.includes(needle)`. -/
def includes (s needle : JsString) : Bool :=
  s.tails.any (fun t => needle.isPrefixOf t)

/-- ASCII case folding; agrees with `String.prototype.toLowerCase` on ASCII text. -/
def asciiToLowerCase (s : JsString) : JsString :=
  s.map (fun u => if 65 ≤ u ∧ u ≤ 90 then u + 32 else u)

/-! ## Data -/

/-- Discord user id (`msg.author.id`). -/
abbrev UserId := Nat

inductive Role where
  | user
  | assistant
  | system
  deriving DecidableEq, Repr

/-- One entry `{ role, content }` of a conversation. -/
structure Message where
  role : Role
  content : JsString
  deriving DecidableEq, Repr

/-- The two module-level maps (lines 32-33). -/
structure Store where
  conversationHistory : UserId → Option (List Message)
  lastBotReply : UserId → Option JsString

/-- The call `m.set(k, v)`. -/
def mapSet {α : Type} (m : UserId → Option α) (k : UserId) (v : α) : UserId → Option α :=
  fun k' => if k' = k then some v else m k'

/-- The store at process start: both maps empty. -/
def Store.empty : Store := ⟨fun _ => none, fun _ => none⟩

/-- The fields of the incoming `msg` the handler reads. -/
structure Msg where
  authorBot : Bool
  mentionsEveryone : Bool
  mentionsHasClientUser : Bool
  authorId : UserId
  content : JsString

/-- Outcome of `model.generateContent(..)` followed by `result.response.text()`
(lines 116-138): the call returns and `text()` gives the text; the call returns a
response without usable content and `text()` throws an error; or the call itself throws
an error.  An error carries its `status` property (`none` when it has none or when it is
not a number, so that `status !== 429` holds). -/
inductive GeminiResult where
  | text (t : JsString)
  | textThrows (status : Option Nat)
  | error (status : Option Nat)

/-- Outcome of `groq.chat.completions.create(..)`: a completion with a `choices` array
whose `choices[0]?.message?.content` is the given string (`none` when the chain yields
`undefined` or `null`); a completion without a `choices` array, on which
`completion.choices[0]` throws a `TypeError`; or a thrown error. -/
inductive GroqResult where
  | completion (content : Option JsString)
  | noChoices
  | error

/-- Outcome of `await msg.reply(..)`: the promise resolves, or it rejects with an error
whose `status` property is the given one. -/
inductive ReplyResult where
  | sent
  | rejected (status : Option Nat)

/-- What one handler invocation is given by its surroundings.  `toLowerCase` is the
built-in `String.prototype.toLowerCase`; `reply n text` is the outcome of the call
`msg.reply(text)` when `n` calls of `msg.reply` were made before it in this invocation. -/
structure Env where
  toLowerCase : JsString → JsString
  generateContent : List JsString → GeminiResult
  groqCreate : List Message → GroqResult
  reply : Nat → JsString → ReplyResult

/-- Observable steps of the handler, in the order they happen. -/
inductive Action where
  | sendTyping
  | generateContent (parts : List JsString)
  | groqCreate (messages : List Message)
  | reply (text : JsString)
  deriving DecidableEq, Repr

/-! ## Literals of the source -/

/-- The template literal of lines 80-90 up to the interpolation. -/
def correctionPromptHead : JsString :=
  js "\n" ++
  js "          You are Paimon from Genshin Impact, acting as a tsundere.\n" ++
  js "          Your last reply was: \""

/-- The template literal of lines 80-90 after the interpolation. -/
def correctionPromptTail : JsString :=
  js "\".\n" ++
  js "          The user said it was wrong (\"mali\").\n" ++
  js "          If it’s wrong, admit it but in a tsundere way (embarrassed, defensive, but thankful).\n" ++
  js "          If it’s right, defend yourself in a tsundere way (playfully bratty, but secretly glad).\n" ++
  js "          Always use 1–3 short sentences. Mix Tagalog-English.\n" ++
  js "          Examples:\n" ++
  js "          - \"Ugh, fine! Paimon was wrong this time… b-but thanks for noticing, Traveler!\"\n" ++
  js "          - \"Hmph! Paimon was actually right all along, you just didn’t get it!\"\n" ++
  js "          "

/-- The template literal of lines 80-90, `prevReply` interpolated. -/
def correctionPrompt (prevReply : JsString) : JsString :=
  correctionPromptHead ++ prevReply ++ correctionPromptTail

/-- The persona text sent to Gemini (lines 122-130). -/
def geminiPersona : JsString :=
  js "You are Paimon from Genshin Impact, but act like a tsundere anime girl.\n" ++
  js "                Stay bratty, playful, sometimes embarrassed, but still bubbly.\n" ++
  js "                Mix Tagalog-English naturally.\n" ++
  js "                Always refer to yourself as \"Paimon\".\n" ++
  js "                Keep responses short (1–3 sentences max).\n" ++
  js "                Examples:\n" ++
  js "                - \"Hmph! Don’t get the wrong idea, Paimon’s only helping ‘cause Traveler can’t do it alone!\"\n" ++
  js "                - \"I-it’s not like Paimon made a mistake or anything, okay?!\"\n" ++
  js "                - \"Tch, fine! Paimon will forgive you this time, but only because you’re the Traveler~!\""

/-- The system message content of the Groq fallback (lines 156-159). -/
def groqPersona : JsString :=
  js "You are Paimon from Genshin Impact.\n" ++
  js "          Stay bubbly, childish, sometimes bossy, mix Tagalog/English naturally.\n" ++
  js "          Always refer to yourself as \"Paimon\". Keep responses short (1–3 sentences max).\n" ++
  js "          Example: \"Paimon thinks that's a good idea, hihi~!\""

/-- Line 103. -/
def correctionPlaceholder : JsString := js "🤔 Paimon doesn’t know how to fix that..."

/-- Line 139. -/
def geminiPlaceholder : JsString := js "🤐 Paimon got speechless!"

/-- Line 166. -/
def groqPlaceholder : JsString := js "🤐 Paimon forgot!"

/-- Line 173. -/
def apology : JsString := js "⚠️ Paimon got confused — baka mali ang API key?"

/-! ## The handler -/

/-- Lines 63-66: `history.push({role: "user", ..})`, then one `history.shift()` when the
length exceeds 10. -/
def pushUser (history : List Message) (content : JsString) : List Message :=
  let pushed := history ++ [⟨Role.user, content⟩]
  if pushed.length > 10 then pushed.tail else pushed

/-- The condition of lines 72-77 on the lower-cased text. -/
def isCorrectionText (userText : JsString) : Bool :=
  includes userText (js "that's wrong") ||
  includes userText (js "mali") ||
  includes userText (js "mali ka") ||
  includes userText (js "wrong")

/-- Truthiness test `if (prevReply)` of line 79 on `lastBotReply.get(userId)`: the
cached reply when it is defined and not the empty string. -/
def truthyReply : Option JsString → Option JsString
  | some (c :: cs) => some (c :: cs)
  | _ => none

/-- The expression `content || fallback` on an optional string. -/
def orElse (content : Option JsString) (fallback : JsString) : JsString :=
  match content with
  | some (c :: cs) => c :: cs
  | _ => fallback

/-- Lines 72-79 together: the cached reply the correction mode is entered with, if it is
entered. -/
def correctionTarget (s : Store) (userId : UserId) (userText : JsString) : Option JsString :=
  if isCorrectionText userText then truthyReply (s.lastBotReply userId) else none

/-- Store after `history.push({role: "assistant", content: reply})` and
`lastBotReply.set(userId, reply)`; `history` is the array held by the map. -/
def saveReply (s : Store) (userId : UserId) (history : List Message) (reply : JsString) :
    Store :=
  { conversationHistory :=
      mapSet s.conversationHistory userId (history ++ [⟨Role.assistant, reply⟩]),
    lastBotReply := mapSet s.lastBotReply userId reply }

/-- The texts passed to `msg.reply`, in order. -/
def replies : List Action → List JsString
  | [] => []
  | Action.reply t :: rest => t :: replies rest
  | _ :: rest => replies rest

/-- The `messages` of the correction call (lines 95-98). -/
def correctionMessages (prevReply : JsString) (msg : Msg) : List Message :=
  [⟨Role.system, correctionPrompt prevReply⟩, ⟨Role.user, msg.content⟩]

/-- The `parts` of the Gemini call (lines 120-133). -/
def geminiParts (msg : Msg) : List JsString := [geminiPersona, msg.content]

/-- The `messages` of the fallback call (lines 153-162): the system message, then the
spread `...history`. -/
def fallbackMessages (history : List Message) : List Message :=
  ⟨Role.system, groqPersona⟩ :: history

/-- Lines 80-109, correction mode; `tr` is the trace so far.  The third component tells
whether an error was thrown (to be caught at line 171). -/
def correctionMode (env : Env) (s : Store) (msg : Msg) (history : List Message)
    (prevReply : JsString) (tr : List Action) : Store × List Action × Bool :=
  match env.groqCreate (correctionMessages prevReply msg) with
  | GroqResult.error => (s, tr ++ [Action.groqCreate (correctionMessages prevReply msg)], true)
  | GroqResult.noChoices =>
    (s, tr ++ [Action.groqCreate (correctionMessages prevReply msg)], true)
  | GroqResult.completion content =>
    let correction := orElse content correctionPlaceholder
    match env.reply (replies tr).length (slice correction 2000) with
    | ReplyResult.rejected _ =>
      (s, tr ++ [Action.groqCreate (correctionMessages prevReply msg),
        Action.reply (slice correction 2000)], true)
    | ReplyResult.sent =>
      (saveReply s msg.authorId history correction,
        tr ++ [Action.groqCreate (correctionMessages prevReply msg),
          Action.reply (slice correction 2000)], false)

/-- Lines 150-169, Groq fallback. -/
def groqFallback (env : Env) (s : Store) (msg : Msg) (history : List Message)
    (tr : List Action) : Store × List Action × Bool :=
  match env.groqCreate (fallbackMessages history) with
  | GroqResult.error => (s, tr ++ [Action.groqCreate (fallbackMessages history)], true)
  | GroqResult.noChoices => (s, tr ++ [Action.groqCreate (fallbackMessages history)], true)
  | GroqResult.completion content =>
    let reply := orElse content groqPlaceholder
    match env.reply (replies tr).length (slice reply 2000) with
    | ReplyResult.rejected _ =>
      (s, tr ++ [Action.groqCreate (fallbackMessages history),
        Action.reply (slice reply 2000)], true)
    | ReplyResult.sent =>
      (saveReply s msg.authorId history reply,
        tr ++ [Action.groqCreate (fallbackMessages history),
          Action.reply (slice reply 2000)], false)

/-- Line 144 and what follows it: an error of status other than 429 is rethrown, an error
of status 429 leads to the Groq fallback. -/
def geminiCatch (env : Env) (s : Store) (msg : Msg) (history : List Message)
    (tr : List Action) (status : Option Nat) : Store × List Action × Bool :=
  if status ≠ some 429 then (s, tr, true) else groqFallback env s msg history tr

/-- Lines 113-169: Gemini first.  The `try` of lines 114-142 encloses the Gemini call,
`result.response.text()` and `await msg.reply(..)`: an error thrown by any of the three
is caught at line 143. -/
def geminiFirst (env : Env) (s : Store) (msg : Msg) (history : List Message)
    (tr : List Action) : Store × List Action × Bool :=
  match env.generateContent (geminiParts msg) with
  | GeminiResult.text reply =>
    match env.reply (replies tr).length
        (orElse (some (slice reply 2000)) geminiPlaceholder) with
    | ReplyResult.sent =>
      (saveReply s msg.authorId history reply,
        tr ++ [Action.generateContent (geminiParts msg),
          Action.reply (orElse (some (slice reply 2000)) geminiPlaceholder)], false)
    | ReplyResult.rejected status =>
      geminiCatch env s msg history
        (tr ++ [Action.generateContent (geminiParts msg),
          Action.reply (orElse (some (slice reply 2000)) geminiPlaceholder)]) status
  | GeminiResult.textThrows status =>
    geminiCatch env s msg history (tr ++ [Action.generateContent (geminiParts msg)]) status
  | GeminiResult.error status =>
    geminiCatch env s msg history (tr ++ [Action.generateContent (geminiParts msg)]) status

/-- Lines 68-170, the body of the outer `try`. -/
def tryBody (env : Env) (s : Store) (msg : Msg) (userText : JsString)
    (history : List Message) : Store × List Action × Bool :=
  match correctionTarget s msg.authorId userText with
  | some prevReply => correctionMode env s msg history prevReply [Action.sendTyping]
  | none => geminiFirst env s msg history [Action.sendTyping]

/-- Lines 171-174, the outer `catch`: a thrown error adds the apology reply. -/
def outerCatch : Store × List Action × Bool → Store × List Action
  | (s, tr, true) => (s, tr ++ [Action.reply apology])
  | (s, tr, false) => (s, tr)

/-- The array `history` after lines 56-66. -/
def pushedHistory (s : Store) (msg : Msg) : List Message :=
  pushUser ((s.conversationHistory msg.authorId).getD []) msg.content

/-- The store after lines 56-66. -/
def afterPush (s : Store) (msg : Msg) : Store :=
  { s with conversationHistory :=
      mapSet s.conversationHistory msg.authorId (pushedHistory s msg) }

/-- Lines 48-175, the `messageCreate` handler: the store and the trace it leaves. -/
def messageCreate (env : Env) (s : Store) (msg : Msg) : Store × List Action :=
  if msg.authorBot then (s, [])
  else if msg.mentionsEveryone then (s, [])
  else if !msg.mentionsHasClientUser then (s, [])
  else
    outerCatch
      (tryBody env (afterPush s msg) msg (env.toLowerCase msg.content) (pushedHistory s msg))

/-- A sequence of handler invocations, one after the other, each with its own
environment; the traces are concatenated. -/
def handleAll (s : Store) : List (Env × Msg) → Store × List Action
  | [] => (s, [])
  | (env, msg) :: rest =>
    let r := messageCreate env s msg
    let r' := handleAll r.1 rest
    (r'.1, r.2 ++ r'.2)

/-! ## Reading a trace and a store -/

/-- The message lists passed to the Groq backend, in order. -/
def groqCalls : List Action → List (List Message)
  | [] => []
  | Action.groqCreate m :: rest => m :: groqCalls rest
  | _ :: rest => groqCalls rest

/-- The part lists passed to the Gemini backend, in order. -/
def geminiCalls : List Action → List (List JsString)
  | [] => []
  | Action.generateContent p :: rest => p :: geminiCalls rest
  | _ :: rest => geminiCalls rest

/-- The history of a user, empty when the map has no entry. -/
def getHistory (s : Store) (userId : UserId) : List Message :=
  (s.conversationHistory userId).getD []

/-- The event passes the three guards of lines 49-51. -/
def processed (msg : Msg) : Bool :=
  !msg.authorBot && !msg.mentionsEveryone && msg.mentionsHasClientUser

/-- The event is handled in the branch that starts with the Gemini call: the guards pass
and the correction mode is not entered (the text has no trigger phrase, or it has one
and the cached last reply is absent or empty). -/
def InNormal (env : Env) (s : Store) (msg : Msg) : Prop :=
  processed msg = true ∧
    correctionTarget s msg.authorId (env.toLowerCase msg.content) = none

/-- The event is handled in correction mode, entered with the cached reply `prevReply`. -/
def InCorrection (env : Env) (s : Store) (msg : Msg) (prevReply : JsString) : Prop :=
  processed msg = true ∧
    correctionTarget s msg.authorId (env.toLowerCase msg.content) = some prevReply

/-- The three places of the handler where a backend answer becomes the reply. -/
inductive Branch where
  | correction
  | primary
  | fallback
  deriving DecidableEq, Repr

/-- The placeholder of each branch (lines 103, 139, 166). -/
def placeholder : Branch → JsString
  | Branch.correction => correctionPlaceholder
  | Branch.primary => geminiPlaceholder
  | Branch.fallback => groqPlaceholder

/-- The value of the variable that is stored (`correction` at lines 101-103, `reply` at
line 138, `reply` at lines 165-166), given what the backend returned. -/
def storedText : Branch → Option JsString → JsString
  | Branch.correction, c => orElse c correctionPlaceholder
  | Branch.primary, c => c.getD []
  | Branch.fallback, c => orElse c groqPlaceholder

/-- The argument of `msg.reply` in each branch (lines 104, 139, 167), given what the
backend returned. -/
def sentText : Branch → Option JsString → JsString
  | Branch.correction, c => slice (orElse c correctionPlaceholder) 2000
  | Branch.primary, c => orElse (some (slice (c.getD []) 2000)) geminiPlaceholder
  | Branch.fallback, c => slice (orElse c groqPlaceholder) 2000

/-- In branch `b` a backend returned the content `c` (`none`: a Groq completion whose
first choice, message or content is missing):
correction mode with a successful Groq call; the Gemini call successful; or the Gemini
call failing with status 429 and the Groq fallback call successful. -/
def AnsweredBy (env : Env) (s : Store) (msg : Msg) : Branch → Option JsString → Prop
  | Branch.correction, c =>
    ∃ p, InCorrection env s msg p ∧
      env.groqCreate (correctionMessages p msg) = GroqResult.completion c
  | Branch.primary, c =>
    InNormal env s msg ∧
      ∃ t, c = some t ∧ env.generateContent (geminiParts msg) = GeminiResult.text t
  | Branch.fallback, c =>
    InNormal env s msg ∧
      env.generateContent (geminiParts msg) = GeminiResult.error (some 429) ∧
      env.groqCreate (fallbackMessages (pushedHistory s msg)) = GroqResult.completion c

/-- The turn is answered in branch `b`: a backend returned the content `c` and the call
of `msg.reply` that follows, the first of the invocation, resolves. -/
def Answered (env : Env) (s : Store) (msg : Msg) (b : Branch) (c : Option JsString) : Prop :=
  AnsweredBy env s msg b c ∧ env.reply 0 (sentText b c) = ReplyResult.sent

/-- The turn fails with an error that reaches the outer `catch`: Gemini raises with a
status other than 429, or Groq raises in correction mode, or Groq raises in the fallback
after Gemini raised with status 429. -/
def Failed (env : Env) (s : Store) (msg : Msg) : Prop :=
  (InNormal env s msg ∧
      ∃ st, st ≠ some 429 ∧ env.generateContent (geminiParts msg) = GeminiResult.error st) ∨
    (∃ p, InCorrection env s msg p ∧
      env.groqCreate (correctionMessages p msg) = GroqResult.error) ∨
    (InNormal env s msg ∧
      env.generateContent (geminiParts msg) = GeminiResult.error (some 429) ∧
      env.groqCreate (fallbackMessages (pushedHistory s msg)) = GroqResult.error)

/-! ## Sample inputs -/

/-- An environment with ASCII case folding, constant backend answers, and replies that
resolve. -/
def sampleEnv (g : GeminiResult) (q : GroqResult) : Env :=
  ⟨asciiToLowerCase, fun _ => g, fun _ => q, fun _ _ => ReplyResult.sent⟩

/-- As `sampleEnv`, but the first `msg.reply` of the invocation rejects with an error of
the given status. -/
def rejectingEnv (g : GeminiResult) (q : GroqResult) (status : Option Nat) : Env :=
  ⟨asciiToLowerCase, fun _ => g, fun _ => q,
    fun n _ => if n = 0 then ReplyResult.rejected status else ReplyResult.sent⟩

/-- A message of user 1 that mentions the bot. -/
def sampleMsg (content : JsString) : Msg := ⟨false, false, true, 1, content⟩

/-- A text of 2001 code units (the letter `a` repeated). -/
def longText : JsString := List.replicate 2001 97

/-- Six turns of user 1: the k-th message appended to the history has content `[k]`
(user messages 1, 3, .., 11; Gemini answers 2, 4, .., 12). -/
def sixTurns : List (Env × Msg) :=
  (List.range 6).map
    (fun i => (sampleEnv (GeminiResult.text [2 * i + 2]) GroqResult.error, sampleMsg [2 * i + 1]))

/-! ## Basic facts -/

theorem longText_length : longText.length = 2001 := List.length_replicate _ _

theorem longText_ne_nil : longText ≠ [] := by
  intro e
  have h := congrArg List.length e
  rw [longText_length] at h
  exact absurd h (by decide)

theorem longText_take : longText.take 2000 = List.replicate 2000 97 := by
  unfold longText
  rw [List.take_replicate]
  rfl

theorem slice_of_length_le (t : JsString) (n : Nat) (h : t.length ≤ n) : slice t n = t :=
  List.take_of_length_le h

theorem orElse_some_of_ne_nil (t d : JsString) (h : t ≠ []) : orElse (some t) d = t := by
  cases t with
  | nil => exact absurd rfl h
  | cons c cs => rfl

theorem orElse_of_truthyReply_none (c : Option JsString) (d : JsString)
    (h : truthyReply c = none) : orElse c d = d := by
  match c, h with
  | none, _ => rfl
  | some [], _ => rfl

theorem pushUser_eq (h : List Message) (c : JsString) :
    pushUser h c = (if 10 ≤ h.length then h.tail else h) ++ [⟨Role.user, c⟩] := by
  unfold pushUser
  by_cases hl : 10 ≤ h.length
  · have hne : h ≠ [] := by
      intro e
      simp [e] at hl
    have : (h ++ [(⟨Role.user, c⟩ : Message)]).length > 10 := by
      simp only [List.length_append, List.length_singleton]
      omega
    simp only [this, hl, if_true, List.tail_append_of_ne_nil hne]
  · have : ¬ (h ++ [(⟨Role.user, c⟩ : Message)]).length > 10 := by
      simp only [List.length_append, List.length_singleton]
      omega
    simp only [this, hl, if_false]

theorem messageCreate_of_processed (env : Env) (s : Store) (msg : Msg)
    (hp : processed msg = true) :
    messageCreate env s msg =
      outerCatch (tryBody env (afterPush s msg) msg (env.toLowerCase msg.content)
        (pushedHistory s msg)) := by
  simp only [processed, Bool.and_eq_true, Bool.not_eq_true'] at hp
  simp [messageCreate, hp.1.1, hp.1.2, hp.2]

theorem correctionTarget_afterPush (s : Store) (msg : Msg) (t : JsString) :
    correctionTarget (afterPush s msg) msg.authorId t = correctionTarget s msg.authorId t :=
  rfl

theorem getHistory_saveReply (s : Store) (u : UserId) (h : List Message) (r : JsString) :
    getHistory (saveReply s u h r) u = h ++ [⟨Role.assistant, r⟩] := by
  simp [getHistory, saveReply, mapSet]

theorem lastBotReply_saveReply (s : Store) (u : UserId) (h : List Message) (r : JsString) :
    (saveReply s u h r).lastBotReply u = some r := by
  simp [saveReply, mapSet]

/-- The handler in the Gemini-first branch. -/
theorem messageCreate_of_inNormal (env : Env) (s : Store) (msg : Msg)
    (h : InNormal env s msg) :
    messageCreate env s msg =
      outerCatch (geminiFirst env (afterPush s msg) msg (pushedHistory s msg)
        [Action.sendTyping]) := by
  rw [messageCreate_of_processed env s msg h.1]
  simp only [tryBody, correctionTarget_afterPush, h.2]

/-- The handler in correction mode. -/
theorem messageCreate_of_inCorrection (env : Env) (s : Store) (msg : Msg) (p : JsString)
    (h : InCorrection env s msg p) :
    messageCreate env s msg =
      outerCatch (correctionMode env (afterPush s msg) msg (pushedHistory s msg) p
        [Action.sendTyping]) := by
  rw [messageCreate_of_processed env s msg h.1]
  simp only [tryBody, correctionTarget_afterPush, h.2]

/-! ## Ignored events -/

/-- C9. An event whose author is a bot, or that mentions everyone, or that does not
mention the bot user, leaves the store (every history, every cached reply) as it was and
has an empty trace: no backend call, no reply, no typing signal. -/
theorem ignored_event_no_effect (env : Env) (s : Store) (msg : Msg)
    (h : msg.authorBot = true ∨ msg.mentionsEveryone = true ∨
      msg.mentionsHasClientUser = false) :
    messageCreate env s msg = (s, []) := by
  unfold messageCreate
  rcases h with h | h | h
  · simp [h]
  · simp [h]
  · simp [h]

theorem ignored_event_no_effect_witness :
    messageCreate (sampleEnv (GeminiResult.text [72]) GroqResult.error) Store.empty
      ⟨true, false, true, 1, [104]⟩ = (Store.empty, []) :=
  ignored_event_no_effect _ _ _ (Or.inl rfl)

/-! ## Routing -/

theorem inCorrection_of_cached (env : Env) (s : Store) (msg : Msg) (p : JsString)
    (hp : processed msg = true)
    (htrig : isCorrectionText (env.toLowerCase msg.content) = true)
    (hprev : s.lastBotReply msg.authorId = some p) (hne : p ≠ []) :
    InCorrection env s msg p := by
  refine ⟨hp, ?_⟩
  cases p with
  | nil => exact absurd rfl hne
  | cons c cs => simp [correctionTarget, htrig, hprev, truthyReply]

/-- C3. Correction routing: a processed message whose lower-cased text has a trigger
phrase, from a user whose cached last reply `p` is non-empty, makes exactly one Groq call,
with exactly the two messages (system: correction prompt, user: the message text), the
correction prompt contains `p`, and Gemini is not called. -/
theorem correction_routing (env : Env) (s : Store) (msg : Msg) (p : JsString)
    (hp : processed msg = true)
    (htrig : isCorrectionText (env.toLowerCase msg.content) = true)
    (hprev : s.lastBotReply msg.authorId = some p) (hne : p ≠ []) :
    groqCalls (messageCreate env s msg).2 =
        [[⟨Role.system, correctionPrompt p⟩, ⟨Role.user, msg.content⟩]] ∧
      geminiCalls (messageCreate env s msg).2 = [] ∧
      p <:+: correctionPrompt p := by
  rw [messageCreate_of_inCorrection env s msg p
    (inCorrection_of_cached env s msg p hp htrig hprev hne)]
  refine ⟨?_, ?_, ?_⟩
  · unfold correctionMode
    cases env.groqCreate (correctionMessages p msg) with
    | error => simp [outerCatch, groqCalls, correctionMessages]
    | noChoices => simp [outerCatch, groqCalls, correctionMessages]
    | completion c =>
      dsimp only
      cases env.reply (replies [Action.sendTyping]).length
        (slice (orElse c correctionPlaceholder) 2000) <;>
        simp [outerCatch, groqCalls, correctionMessages]
  · unfold correctionMode
    cases env.groqCreate (correctionMessages p msg) with
    | error => simp [outerCatch, geminiCalls]
    | noChoices => simp [outerCatch, geminiCalls]
    | completion c =>
      dsimp only
      cases env.reply (replies [Action.sendTyping]).length
        (slice (orElse c correctionPlaceholder) 2000) <;>
        simp [outerCatch, geminiCalls]
  · exact ⟨correctionPromptHead, correctionPromptTail, rfl⟩

theorem correction_routing_witness :
    groqCalls (messageCreate (sampleEnv (GeminiResult.text [72]) (GroqResult.completion none))
        ⟨fun _ => none, fun _ => some [72, 105]⟩ (sampleMsg (js "mali"))).2 =
        [[⟨Role.system, correctionPrompt [72, 105]⟩, ⟨Role.user, js "mali"⟩]] ∧
      geminiCalls (messageCreate (sampleEnv (GeminiResult.text [72])
        (GroqResult.completion none))
        ⟨fun _ => none, fun _ => some [72, 105]⟩ (sampleMsg (js "mali"))).2 = [] ∧
      [72, 105] <:+: correctionPrompt [72, 105] :=
  correction_routing (sampleEnv (GeminiResult.text [72]) (GroqResult.completion none))
    ⟨fun _ => none, fun _ => some [72, 105]⟩ (sampleMsg (js "mali")) [72, 105]
    (by decide) (by decide) rfl (by decide)

/-- The trace of the Gemini-first branch starts with the typing signal and the Gemini
call. -/
theorem geminiFirst_trace_start (env : Env) (s : Store) (msg : Msg) (h : List Message) :
    ∃ rest, (outerCatch (geminiFirst env s msg h [Action.sendTyping])).2 =
      Action.sendTyping :: Action.generateContent [geminiPersona, msg.content] :: rest := by
  have hq : ∀ tr' : List Action, ∃ rest,
      (outerCatch (groqFallback env s msg h
        (Action.sendTyping :: Action.generateContent [geminiPersona, msg.content] :: tr'))).2 =
      Action.sendTyping :: Action.generateContent [geminiPersona, msg.content] :: rest := by
    intro tr'
    unfold groqFallback
    cases env.groqCreate (fallbackMessages h) with
    | error => simp [outerCatch]
    | noChoices => simp [outerCatch]
    | completion c =>
      dsimp only
      cases env.reply (replies (Action.sendTyping ::
        Action.generateContent [geminiPersona, msg.content] :: tr')).length
        (slice (orElse c groqPlaceholder) 2000) <;> simp [outerCatch]
  have hc : ∀ (tr' : List Action) (st : Option Nat), ∃ rest,
      (outerCatch (geminiCatch env s msg h
        (Action.sendTyping :: Action.generateContent [geminiPersona, msg.content] :: tr')
        st)).2 =
      Action.sendTyping :: Action.generateContent [geminiPersona, msg.content] :: rest := by
    intro tr' st
    unfold geminiCatch
    by_cases hst : st = some 429
    · simpa [hst] using hq tr'
    · simp [hst, outerCatch]
  unfold geminiFirst
  cases env.generateContent (geminiParts msg) with
  | text t =>
    dsimp only
    cases env.reply (replies [Action.sendTyping]).length
      (orElse (some (slice t 2000)) geminiPlaceholder) with
    | sent => simp [outerCatch, geminiParts]
    | rejected st => simpa [geminiParts] using hc [_] st
  | textThrows st => simpa [geminiParts] using hc [] st
  | error st => simpa [geminiParts] using hc [] st

/-- C8. Correction fallthrough: when the text has a trigger phrase but the user has no
cached last reply (none, or the empty string), the turn is the turn the handler makes when
the same text classifies as normal, with the same backends, reply outcomes and state: same
store, same trace; and the trace starts with the typing signal followed by the Gemini call
on the persona and the raw text. -/
theorem correction_fallthrough (env env' : Env) (s : Store) (msg : Msg)
    (hp : processed msg = true)
    (htrig : isCorrectionText (env.toLowerCase msg.content) = true)
    (hno : s.lastBotReply msg.authorId = none ∨ s.lastBotReply msg.authorId = some [])
    (hnormal : isCorrectionText (env'.toLowerCase msg.content) = false)
    (hg : env'.generateContent = env.generateContent)
    (hq : env'.groqCreate = env.groqCreate)
    (hr : env'.reply = env.reply) :
    messageCreate env s msg = messageCreate env' s msg ∧
      ∃ rest, (messageCreate env s msg).2 =
        Action.sendTyping :: Action.generateContent [geminiPersona, msg.content] :: rest := by
  have h1 : InNormal env s msg := by
    refine ⟨hp, ?_⟩
    rcases hno with h | h <;> simp [correctionTarget, htrig, h, truthyReply]
  have h2 : InNormal env' s msg := ⟨hp, by simp [correctionTarget, hnormal]⟩
  rw [messageCreate_of_inNormal env s msg h1, messageCreate_of_inNormal env' s msg h2]
  constructor
  · simp only [geminiFirst, geminiCatch, groqFallback, hg, hq, hr]
  · exact geminiFirst_trace_start env _ msg _

theorem correction_fallthrough_witness :
    messageCreate (sampleEnv (GeminiResult.text [72]) GroqResult.error) Store.empty
        (sampleMsg (js "wrong")) =
      messageCreate ⟨fun _ => [], fun _ => GeminiResult.text [72], fun _ => GroqResult.error,
          fun _ _ => ReplyResult.sent⟩
        Store.empty (sampleMsg (js "wrong")) ∧
      ∃ rest, (messageCreate (sampleEnv (GeminiResult.text [72]) GroqResult.error) Store.empty
        (sampleMsg (js "wrong"))).2 =
        Action.sendTyping :: Action.generateContent [geminiPersona, js "wrong"] :: rest :=
  correction_fallthrough (sampleEnv (GeminiResult.text [72]) GroqResult.error)
    ⟨fun _ => [], fun _ => GeminiResult.text [72], fun _ => GroqResult.error,
      fun _ _ => ReplyResult.sent⟩
    Store.empty (sampleMsg (js "wrong")) (by decide) (by decide) (Or.inl rfl) (by decide)
    rfl rfl rfl

/-- C2. Quota fallback: in the Gemini-first branch, when the Gemini call raises an error
with status 429, the next step is the Groq call with the normal persona system message
followed by the whole current history of the user (the history with the new user message
pushed), and that is the only Groq call; when it raises with any other status, Groq is
not called and the error reaches the outer catch, whose apology reply ends the trace. -/
theorem quota_fallback (env : Env) (s : Store) (msg : Msg) (st : Option Nat)
    (h : InNormal env s msg)
    (herr : env.generateContent [geminiPersona, msg.content] = GeminiResult.error st) :
    (st = some 429 →
        (∃ rest, (messageCreate env s msg).2 =
          [Action.sendTyping, Action.generateContent [geminiPersona, msg.content],
            Action.groqCreate (⟨Role.system, groqPersona⟩ ::
              pushUser (getHistory s msg.authorId) msg.content)] ++ rest) ∧
        groqCalls (messageCreate env s msg).2 =
          [⟨Role.system, groqPersona⟩ :: pushUser (getHistory s msg.authorId) msg.content]) ∧
      (st ≠ some 429 →
        (messageCreate env s msg).2 =
          [Action.sendTyping, Action.generateContent [geminiPersona, msg.content],
            Action.reply apology] ∧
        groqCalls (messageCreate env s msg).2 = []) := by
  have hg : env.generateContent (geminiParts msg) = GeminiResult.error st := herr
  have hh : pushUser (getHistory s msg.authorId) msg.content = pushedHistory s msg := rfl
  rw [messageCreate_of_inNormal env s msg h, hh]
  constructor
  · intro h429
    subst h429
    simp only [geminiFirst, hg, geminiCatch, groqFallback]
    cases env.groqCreate (fallbackMessages (pushedHistory s msg)) with
    | error => simp [outerCatch, groqCalls, geminiParts, fallbackMessages]
    | noChoices => simp [outerCatch, groqCalls, geminiParts, fallbackMessages]
    | completion c =>
      dsimp only
      cases env.reply (replies ([Action.sendTyping] ++
        [Action.generateContent (geminiParts msg)])).length
        (slice (orElse c groqPlaceholder) 2000) <;>
        simp [outerCatch, groqCalls, geminiParts, fallbackMessages]
  · intro hne
    simp only [geminiFirst, hg, geminiCatch]
    simp [hne, outerCatch, groqCalls, geminiParts]

theorem quota_fallback_witness :
    groqCalls (messageCreate (sampleEnv (GeminiResult.error (some 429))
        (GroqResult.completion (some [72]))) Store.empty (sampleMsg [104])).2 =
      [[⟨Role.system, groqPersona⟩, ⟨Role.user, [104]⟩]] :=
  ((quota_fallback (sampleEnv (GeminiResult.error (some 429))
    (GroqResult.completion (some [72]))) Store.empty (sampleMsg [104]) (some 429)
    ⟨by decide, by decide⟩ rfl).1 rfl).2

/-- C10, as stated, fails: Gemini answers `Hi~!` to `hello`, and the call `msg.reply` on
that text rejects (with an error without status).  The error is rethrown at line 145
before lines 140-141 run: the cached last reply stays absent, the history holds the user
message only, and a second reply, the apology, is attempted. -/
theorem primary_success_reply_rejected :
    replies (messageCreate (rejectingEnv (GeminiResult.text (js "Hi~!")) GroqResult.error none)
        Store.empty (sampleMsg (js "hello"))).2 = [js "Hi~!", apology] ∧
      (messageCreate (rejectingEnv (GeminiResult.text (js "Hi~!")) GroqResult.error none)
        Store.empty (sampleMsg (js "hello"))).1.lastBotReply 1 = none ∧
      getHistory (messageCreate (rejectingEnv (GeminiResult.text (js "Hi~!")) GroqResult.error
        none) Store.empty (sampleMsg (js "hello"))).1 1 = [⟨Role.user, js "hello"⟩] := by
  decide

/-- A rejection of `msg.reply` at line 139 with status 429 is caught at line 143 and
passes the test of line 144: the Groq fallback runs although Gemini answered, and the
text of Groq is what gets cached. -/
theorem reply_rejected_429_runs_fallback :
    groqCalls (messageCreate (rejectingEnv (GeminiResult.text (js "Hi~!"))
        (GroqResult.completion (some (js "ok"))) (some 429))
        Store.empty (sampleMsg (js "hello"))).2 =
        [[⟨Role.system, groqPersona⟩, ⟨Role.user, js "hello"⟩]] ∧
      replies (messageCreate (rejectingEnv (GeminiResult.text (js "Hi~!"))
        (GroqResult.completion (some (js "ok"))) (some 429))
        Store.empty (sampleMsg (js "hello"))).2 = [js "Hi~!", js "ok"] ∧
      (messageCreate (rejectingEnv (GeminiResult.text (js "Hi~!"))
        (GroqResult.completion (some (js "ok"))) (some 429))
        Store.empty (sampleMsg (js "hello"))).1.lastBotReply 1 = some (js "ok") :=
  ⟨rfl, by decide, by decide⟩

/-- C10, amended. Normal-branch primary success: when Gemini, called with the persona text
and the raw message text only, returns a non-empty text `t` of at most 2000 code units and
the call `msg.reply(t)` resolves, the trace is typing signal, Gemini call, reply `t`; Groq
is not called; the cached last reply of the user becomes `t`; and the history becomes the
prior history, without its first entry when it already had 10 or more, followed by the
user message and the assistant message `t`. -/
theorem normal_primary_success (env : Env) (s : Store) (msg : Msg) (t : JsString)
    (h : InNormal env s msg)
    (ht : env.generateContent [geminiPersona, msg.content] = GeminiResult.text t)
    (hne : t ≠ []) (hlen : t.length ≤ 2000)
    (hsent : env.reply 0 t = ReplyResult.sent) :
    (messageCreate env s msg).2 =
        [Action.sendTyping, Action.generateContent [geminiPersona, msg.content],
          Action.reply t] ∧
      groqCalls (messageCreate env s msg).2 = [] ∧
      (messageCreate env s msg).1.lastBotReply msg.authorId = some t ∧
      getHistory (messageCreate env s msg).1 msg.authorId =
        (if 10 ≤ (getHistory s msg.authorId).length then (getHistory s msg.authorId).tail
          else getHistory s msg.authorId) ++
          [⟨Role.user, msg.content⟩, ⟨Role.assistant, t⟩] := by
  have hsl : orElse (some (slice t 2000)) geminiPlaceholder = t := by
    rw [slice_of_length_le t 2000 hlen, orElse_some_of_ne_nil t _ hne]
  have hg : env.generateContent (geminiParts msg) = GeminiResult.text t := ht
  have hidx : (replies [Action.sendTyping]).length = 0 := rfl
  rw [messageCreate_of_inNormal env s msg h]
  simp only [geminiFirst, hg, hsl, hidx, hsent, outerCatch]
  refine ⟨?_, ?_, ?_, ?_⟩
  · simp [geminiParts]
  · simp [groqCalls]
  · exact lastBotReply_saveReply _ _ _ _
  · rw [getHistory_saveReply, pushedHistory, pushUser_eq]
    simp [getHistory]

theorem normal_primary_success_witness :
    (messageCreate (sampleEnv (GeminiResult.text (js "Hi~!")) GroqResult.error) Store.empty
        (sampleMsg (js "hello"))).2 =
        [Action.sendTyping, Action.generateContent [geminiPersona, js "hello"],
          Action.reply (js "Hi~!")] ∧
      (messageCreate (sampleEnv (GeminiResult.text (js "Hi~!")) GroqResult.error) Store.empty
        (sampleMsg (js "hello"))).1.lastBotReply 1 = some (js "Hi~!") ∧
      getHistory (messageCreate (sampleEnv (GeminiResult.text (js "Hi~!")) GroqResult.error)
        Store.empty (sampleMsg (js "hello"))).1 1 =
        [⟨Role.user, js "hello"⟩, ⟨Role.assistant, js "Hi~!"⟩] :=
  have h := normal_primary_success (sampleEnv (GeminiResult.text (js "Hi~!")) GroqResult.error)
    Store.empty (sampleMsg (js "hello")) (js "Hi~!") ⟨by decide, by decide⟩ rfl
    (by decide) (by decide) rfl
  ⟨h.1, h.2.2.1, h.2.2.2⟩

/-! ## Answered turns -/

/-- When a backend answers in branch `b`, the first `msg.reply` of the turn is made on
the text of that branch, whether it resolves or not. -/
theorem answeredBy_first_reply (env : Env) (s : Store) (msg : Msg) (b : Branch)
    (c : Option JsString) (h : AnsweredBy env s msg b c) :
    (replies (messageCreate env s msg).2).head? = some (sentText b c) := by
  cases b with
  | correction =>
    obtain ⟨p, hin, hq⟩ := h
    rw [messageCreate_of_inCorrection env s msg p hin]
    simp only [correctionMode, hq]
    cases env.reply (replies [Action.sendTyping]).length
      (slice (orElse c correctionPlaceholder) 2000) <;>
      simp [outerCatch, replies, sentText]
  | primary =>
    obtain ⟨hin, t, hc, hg⟩ := h
    subst hc
    rw [messageCreate_of_inNormal env s msg hin]
    simp only [geminiFirst, hg]
    cases env.reply (replies [Action.sendTyping]).length
        (orElse (some (slice t 2000)) geminiPlaceholder) with
    | sent => simp [outerCatch, replies, sentText]
    | rejected st =>
      simp only [geminiCatch, groqFallback]
      by_cases hst : st = some 429
      · simp only [hst, ne_eq, not_true_eq_false, if_false]
        cases env.groqCreate (fallbackMessages (pushedHistory s msg)) with
        | error => simp [outerCatch, replies, sentText]
        | noChoices => simp [outerCatch, replies, sentText]
        | completion c' =>
          dsimp only
          split <;> simp [outerCatch, replies, sentText]
      · simp [hst, outerCatch, replies, sentText]
  | fallback =>
    obtain ⟨hin, hg, hq⟩ := h
    rw [messageCreate_of_inNormal env s msg hin]
    simp only [geminiFirst, hg, geminiCatch, groqFallback, hq]
    simp only [ne_eq, not_true_eq_false, if_false]
    split <;> simp [outerCatch, replies, sentText]

/-- An answered turn: the store it leaves and the one reply it sends. -/
theorem answered_turn (env : Env) (s : Store) (msg : Msg) (b : Branch) (c : Option JsString)
    (h : Answered env s msg b c) :
    (messageCreate env s msg).1 =
        saveReply (afterPush s msg) msg.authorId (pushedHistory s msg) (storedText b c) ∧
      replies (messageCreate env s msg).2 = [sentText b c] := by
  obtain ⟨hby, hsent⟩ := h
  cases b with
  | correction =>
    obtain ⟨p, hin, hq⟩ := hby
    have hs : env.reply 0 (slice (orElse c correctionPlaceholder) 2000) = ReplyResult.sent :=
      hsent
    rw [messageCreate_of_inCorrection env s msg p hin]
    simp [correctionMode, hq, replies, hs, outerCatch, storedText, sentText]
  | primary =>
    obtain ⟨hin, t, hc, hg⟩ := hby
    subst hc
    have hs : env.reply 0 (orElse (some (slice t 2000)) geminiPlaceholder) =
        ReplyResult.sent := hsent
    rw [messageCreate_of_inNormal env s msg hin]
    simp [geminiFirst, hg, replies, hs, outerCatch, storedText, sentText]
  | fallback =>
    obtain ⟨hin, hg, hq⟩ := hby
    have hs : env.reply 0 (slice (orElse c groqPlaceholder) 2000) = ReplyResult.sent := hsent
    rw [messageCreate_of_inNormal env s msg hin]
    simp [geminiFirst, hg, geminiCatch, groqFallback, hq, replies, hs, outerCatch,
      storedText, sentText]

theorem placeholder_ne_nil (b : Branch) : placeholder b ≠ [] := by
  cases b <;> decide

theorem placeholder_length (b : Branch) : (placeholder b).length ≤ 2000 := by
  cases b <;> decide

theorem sentText_of_empty (b : Branch) (c : Option JsString) (hc : truthyReply c = none)
    (hprim : b = Branch.primary → c = some []) : sentText b c = placeholder b := by
  cases b with
  | correction =>
    simp only [sentText, orElse_of_truthyReply_none c _ hc, placeholder]
    exact slice_of_length_le _ _ (placeholder_length Branch.correction)
  | primary =>
    rw [hprim rfl]
    rfl
  | fallback =>
    simp only [sentText, orElse_of_truthyReply_none c _ hc, placeholder]
    exact slice_of_length_le _ _ (placeholder_length Branch.fallback)

theorem sentText_of_text (b : Branch) (t : JsString) (hne : t ≠ []) :
    sentText b (some t) = slice t 2000 := by
  cases t with
  | nil => exact absurd rfl hne
  | cons u us => cases b <;> rfl

/-! ## The reply that is sent -/

/-- C5, as stated, fails on a response with missing content.  In the fallback branch
Groq returns a completion without a `choices` array: `completion.choices[0]` at line 166
throws.  In the primary branch Gemini returns a response without usable content and
`result.response.text()` at line 138 throws.  Either way the one reply of the turn is the
apology of the outer `catch`, not the placeholder of the branch. -/
theorem missing_content_gets_apology :
    replies (messageCreate (sampleEnv (GeminiResult.error (some 429)) GroqResult.noChoices)
        Store.empty (sampleMsg (js "hello"))).2 = [apology] ∧
      replies (messageCreate (sampleEnv (GeminiResult.textThrows none) GroqResult.error)
        Store.empty (sampleMsg (js "hello"))).2 = [apology] ∧
      apology ≠ groqPlaceholder ∧ apology ≠ geminiPlaceholder := by
  decide

/-- C5, amended. Placeholder substitution: in each branch (correction, primary, fallback),
when the backend that answers returns the empty string or, for Groq, a completion with a
`choices` array whose first choice, message or content is missing, the reply made for it,
the first `msg.reply` of the turn, carries the placeholder of that branch, which is not the
empty string.  When that call resolves it is the only reply of the turn. -/
theorem placeholder_substitution (env : Env) (s : Store) (msg : Msg) (b : Branch)
    (c : Option JsString) (h : AnsweredBy env s msg b c)
    (hc : c = some [] ∨ (b ≠ Branch.primary ∧ c = none)) :
    (replies (messageCreate env s msg).2).head? = some (placeholder b) ∧
      placeholder b ≠ [] ∧
      (env.reply 0 (placeholder b) = ReplyResult.sent →
        replies (messageCreate env s msg).2 = [placeholder b]) := by
  have htr : truthyReply c = none := by
    rcases hc with e | ⟨_, e⟩ <;> rw [e] <;> rfl
  have hprim : b = Branch.primary → c = some [] := by
    intro hb
    rcases hc with e | ⟨hnb, _⟩
    · exact e
    · exact absurd hb hnb
  have hst : sentText b c = placeholder b := sentText_of_empty b c htr hprim
  refine ⟨?_, placeholder_ne_nil b, ?_⟩
  · rw [answeredBy_first_reply env s msg b c h, hst]
  · intro hs
    rw [(answered_turn env s msg b c ⟨h, by rw [hst]; exact hs⟩).2, hst]

theorem placeholder_substitution_witness :
    replies (messageCreate (sampleEnv (GeminiResult.error (some 429))
        (GroqResult.completion none)) Store.empty
        (sampleMsg (js "hello"))).2 = [js "🤐 Paimon forgot!"] ∧
      js "🤐 Paimon forgot!" ≠ [] :=
  have h := placeholder_substitution (sampleEnv (GeminiResult.error (some 429))
    (GroqResult.completion none)) Store.empty
    (sampleMsg (js "hello")) Branch.fallback none
    ⟨⟨by decide, by decide⟩, rfl, rfl⟩ (Or.inr ⟨by decide, rfl⟩)
  ⟨h.2.2 rfl, h.2.1⟩

/-- C6. Truncation: in each branch, when the backend text `t` has more than 2000 code
units, the reply made for it, the first `msg.reply` of the turn, carries
`t.slice(0, 2000)`: it has exactly 2000 code units and is the prefix of `t` made of its
first 2000; when `t` is non-empty with at most 2000 code units, the reply is `t`
unchanged.  When that call resolves it is the only reply of the turn. -/
theorem reply_truncation (env : Env) (s : Store) (msg : Msg) (b : Branch) (t : JsString)
    (h : AnsweredBy env s msg b (some t)) :
    (2000 < t.length →
        (replies (messageCreate env s msg).2).head? = some (t.take 2000) ∧
        (env.reply 0 (t.take 2000) = ReplyResult.sent →
          replies (messageCreate env s msg).2 = [t.take 2000]) ∧
        (t.take 2000).length = 2000 ∧ t.take 2000 <+: t) ∧
      (t ≠ [] → t.length ≤ 2000 →
        (replies (messageCreate env s msg).2).head? = some t ∧
        (env.reply 0 t = ReplyResult.sent → replies (messageCreate env s msg).2 = [t])) := by
  have hfirst := answeredBy_first_reply env s msg b (some t) h
  constructor
  · intro hl
    have hne : t ≠ [] := by
      intro e
      simp [e] at hl
    have hst : sentText b (some t) = t.take 2000 := sentText_of_text b t hne
    refine ⟨by rw [hfirst, hst], ?_, ?_, List.take_prefix 2000 t⟩
    · intro hs
      rw [(answered_turn env s msg b (some t) ⟨h, by rw [hst]; exact hs⟩).2, hst]
    · rw [List.length_take]
      omega
  · intro hne hl
    have hst : sentText b (some t) = t := by
      rw [sentText_of_text b t hne, slice_of_length_le t 2000 hl]
    refine ⟨by rw [hfirst, hst], ?_⟩
    intro hs
    rw [(answered_turn env s msg b (some t) ⟨h, by rw [hst]; exact hs⟩).2, hst]

theorem reply_truncation_witness :
    replies (messageCreate (sampleEnv (GeminiResult.error (some 429))
        (GroqResult.completion (some longText))) Store.empty
        (sampleMsg (js "hello"))).2 = [longText.take 2000] ∧
      (longText.take 2000).length = 2000 ∧ longText.take 2000 <+: longText :=
  have h := (reply_truncation (sampleEnv (GeminiResult.error (some 429))
    (GroqResult.completion (some longText))) Store.empty
    (sampleMsg (js "hello")) Branch.fallback longText
    ⟨⟨by decide, by decide⟩, rfl, rfl⟩).1 (by rw [longText_length]; decide)
  ⟨h.2.1 rfl, h.2.2⟩

/-- C7. Top-level error policy: when the handling of a processed message fails (Gemini
raises with a status other than 429, or Groq raises in correction mode or in the
fallback), exactly one reply is sent for that message, the fixed apology text; no reply
carries a backend text. -/
theorem apology_on_failure (env : Env) (s : Store) (msg : Msg) (h : Failed env s msg) :
    replies (messageCreate env s msg).2 = [apology] ∧
      (replies (messageCreate env s msg).2).length = 1 := by
  have hr : replies (messageCreate env s msg).2 = [apology] := by
    rcases h with ⟨hin, st, hst, hg⟩ | ⟨p, hin, hq⟩ | ⟨hin, hg, hq⟩
    · rw [messageCreate_of_inNormal env s msg hin]
      simp [geminiFirst, hg, geminiCatch, hst, outerCatch, replies]
    · rw [messageCreate_of_inCorrection env s msg p hin]
      simp [correctionMode, hq, outerCatch, replies]
    · rw [messageCreate_of_inNormal env s msg hin]
      simp [geminiFirst, hg, geminiCatch, groqFallback, hq, outerCatch, replies]
  rw [hr]
  exact ⟨rfl, rfl⟩

theorem apology_on_failure_witness :
    replies (messageCreate (sampleEnv (GeminiResult.error (some 500))
        (GroqResult.completion (some [72]))) Store.empty (sampleMsg (js "hello"))).2 =
        [js "⚠️ Paimon got confused — baka mali ang API key?"] ∧
      (replies (messageCreate (sampleEnv (GeminiResult.error (some 500))
        (GroqResult.completion (some [72]))) Store.empty (sampleMsg (js "hello"))).2).length
        = 1 :=
  apology_on_failure (sampleEnv (GeminiResult.error (some 500))
    (GroqResult.completion (some [72]))) Store.empty (sampleMsg (js "hello"))
    (Or.inl ⟨⟨by decide, by decide⟩, some 500, by decide, rfl⟩)

/-! ## What is stored -/

/-- C4, as stated, fails: Gemini answers with 2001 code units; the reply sent has the
first 2000 of them, while the cached last reply and the assistant message appended to
the history hold all 2001. -/
theorem stored_reply_not_truncated :
    replies (messageCreate (sampleEnv (GeminiResult.text longText) GroqResult.error)
        Store.empty (sampleMsg [104])).2 = [List.replicate 2000 97] ∧
      (messageCreate (sampleEnv (GeminiResult.text longText) GroqResult.error)
        Store.empty (sampleMsg [104])).1.lastBotReply 1 = some (List.replicate 2001 97) ∧
      getHistory (messageCreate (sampleEnv (GeminiResult.text longText) GroqResult.error)
        Store.empty (sampleMsg [104])).1 1 =
        [⟨Role.user, [104]⟩, ⟨Role.assistant, List.replicate 2001 97⟩] ∧
      (List.replicate 2000 97 : JsString) ≠ List.replicate 2001 97 := by
  have h : Answered (sampleEnv (GeminiResult.text longText) GroqResult.error) Store.empty
      (sampleMsg [104]) Branch.primary (some longText) :=
    ⟨⟨⟨by decide, by decide⟩, _, rfl, rfl⟩, rfl⟩
  obtain ⟨h1, h2⟩ := answered_turn _ _ _ _ _ h
  rw [h1, h2]
  refine ⟨?_, ?_, ?_, ?_⟩
  · rw [sentText_of_text _ _ longText_ne_nil, slice, longText_take]
  · exact lastBotReply_saveReply _ _ _ _
  · exact getHistory_saveReply _ (sampleMsg [104]).authorId _ _
  · intro e
    have hl := congrArg List.length e
    rw [List.length_replicate, List.length_replicate] at hl
    exact absurd hl (by decide)

/-- C4, amended. In an answered turn whose stored text is non-empty (the backend text, or
in the correction and fallback branches the placeholder when the backend text is empty or
missing), the assistant message appended to the history and the cached last reply hold
that same text, untruncated; the one reply sent is its first 2000 code units, hence the
stored text itself when it has at most 2000. -/
theorem stored_reply_is_full_text (env : Env) (s : Store) (msg : Msg) (b : Branch)
    (c : Option JsString) (h : Answered env s msg b c) (hne : storedText b c ≠ []) :
    getHistory (messageCreate env s msg).1 msg.authorId =
        pushUser (getHistory s msg.authorId) msg.content ++
          [⟨Role.assistant, storedText b c⟩] ∧
      (messageCreate env s msg).1.lastBotReply msg.authorId = some (storedText b c) ∧
      replies (messageCreate env s msg).2 = [(storedText b c).take 2000] ∧
      ((storedText b c).length ≤ 2000 →
        replies (messageCreate env s msg).2 = [storedText b c]) ∧
      (∀ t, c = some t → t ≠ [] → storedText b c = t) ∧
      (b ≠ Branch.primary → (c = none ∨ c = some []) → storedText b c = placeholder b) := by
  obtain ⟨h1, h2⟩ := answered_turn env s msg b c h
  have hsent : sentText b c = (storedText b c).take 2000 := by
    cases b with
    | correction => rfl
    | primary =>
      obtain ⟨⟨_, t, ht, _⟩, _⟩ := h
      subst ht
      exact sentText_of_text _ t hne
    | fallback => rfl
  rw [h1, h2, hsent]
  refine ⟨getHistory_saveReply _ _ _ _, lastBotReply_saveReply _ _ _ _, rfl, ?_, ?_, ?_⟩
  · intro hl
    rw [List.take_of_length_le hl]
  · intro t ht htne
    subst ht
    cases t with
    | nil => exact absurd rfl htne
    | cons u us => cases b <;> rfl
  · intro hb hc
    rcases hc with e | e <;> subst e <;> cases b <;> first | rfl | exact absurd rfl hb

theorem stored_reply_is_full_text_witness :
    getHistory (messageCreate (sampleEnv (GeminiResult.text longText) GroqResult.error)
        Store.empty (sampleMsg [104])).1 1 =
        [⟨Role.user, [104]⟩, ⟨Role.assistant, longText⟩] ∧
      (messageCreate (sampleEnv (GeminiResult.text longText) GroqResult.error)
        Store.empty (sampleMsg [104])).1.lastBotReply 1 = some longText ∧
      replies (messageCreate (sampleEnv (GeminiResult.text longText) GroqResult.error)
        Store.empty (sampleMsg [104])).2 = [longText.take 2000] :=
  have h := stored_reply_is_full_text (sampleEnv (GeminiResult.text longText)
    GroqResult.error) Store.empty (sampleMsg [104]) Branch.primary
    (some longText) ⟨⟨⟨by decide, by decide⟩, _, rfl, rfl⟩, rfl⟩ longText_ne_nil
  ⟨h.1, h.2.1, h.2.2.1⟩

/-! ## The history bound -/

/-- An answered turn of a user whose history already has 10 or more entries leaves it one
entry longer: line 66 removes one entry, lines 63 and 108/140/168 add two. -/
theorem answered_turn_history_length (env : Env) (s : Store) (msg : Msg) (b : Branch)
    (c : Option JsString) (h : Answered env s msg b c)
    (hfull : 10 ≤ (getHistory s msg.authorId).length) :
    (getHistory (messageCreate env s msg).1 msg.authorId).length =
      (getHistory s msg.authorId).length + 1 := by
  rw [(answered_turn env s msg b c h).1, getHistory_saveReply, pushedHistory, pushUser_eq]
  have hh : (s.conversationHistory msg.authorId).getD [] = getHistory s msg.authorId := rfl
  rw [hh, if_pos hfull]
  simp only [List.length_append, List.length_tail, List.length_singleton]
  omega

/-- C1 fails on the code: after six answered turns of one user, 12 messages have been
appended and the history holds 11 of them (the 2nd to the 12th), not 10. -/
theorem history_exceeds_ten :
    (getHistory (handleAll Store.empty sixTurns).1 1).length = 11 ∧
      (getHistory (handleAll Store.empty sixTurns).1 1).map Message.content =
        [[2], [3], [4], [5], [6], [7], [8], [9], [10], [11], [12]] := by
  decide

end BotAino
